import Mathlib

/-!
Shallow embedding of the AI anomaly detection service: the security
monitor (`security_monitor.py`) and the metrics anomaly detection
endpoints (`main.py`).

Python dicts (`defaultdict`) are modelled as insertion-ordered
association lists keyed by `String`; timestamps and scores are `ℚ`;
the scikit-learn `IsolationForest` and `StandardScaler` are modelled as
black boxes (a decision function, an is-outlier predicate, a transform),
matching the spec's treatment of the outlier model as an opaque
train/score capability.
-/

/-- Lookup in an association list with a default value (the read half of a
Python `defaultdict`). -/
def alget {α : Type} (d : α) (l : List (String × α)) (k : String) : α :=
  match l.find? (fun p => p.1 == k) with
  | some p => p.2
  | none => d

/-- Update / insert in an association list, keeping insertion order
(the write half of a Python dict). -/
def alset {α : Type} (l : List (String × α)) (k : String) (v : α) :
    List (String × α) :=
  match l with
  | [] => [(k, v)]
  | p :: rest => if p.1 == k then (k, v) :: rest else p :: alset rest k v

/-- Boolean list-prefix test (helper for Python's substring operator). -/
def isPrefixOfB : List Char → List Char → Bool
  | [], _ => true
  | _ :: _, [] => false
  | a :: as, b :: bs => a == b && isPrefixOfB as bs

/-- `containsSub needle hay`: `needle` occurs as a contiguous sublist of
`hay` (Python's `needle in hay` on strings). -/
def containsSub (needle : List Char) : List Char → Bool
  | [] => isPrefixOfB needle []
  | c :: rest => isPrefixOfB needle (c :: rest) || containsSub needle rest

/-- Python's `needle in hay` for strings. -/
def strContains (hay needle : String) : Bool :=
  containsSub needle.data hay.data

/-- Black-box outlier model (the scikit-learn `IsolationForest`):
`decision` is `decision_function`, `isOutlier x` is `predict(x) == -1`. -/
structure OutlierModel where
  decision : List ℚ → ℚ
  isOutlier : List ℚ → Bool

/-- Request observation passed to `SecurityMonitor.analyze_request`
(the keys of the `request_data` dict it reads). -/
structure RequestData where
  client_ip : String
  user_agent : String
  endpoint : String
  method : String
  status_code : Int

/-- The value returned by `analyze_request`. -/
structure ThreatAssessment where
  threats : List String
  risk_score : ℚ
  is_threat : Bool
  client_ip : String
  timestamp : ℚ
  user_agent : String
  endpoint : String
  method : String
  status_code : Int

/-- The mutable state of a `SecurityMonitor` instance. -/
structure SecurityMonitor where
  ip_request_counts : List (String × Nat)
  ip_request_times : List (String × List ℚ)
  user_agents : List (String × Nat)
  suspicious_patterns : List String
  security_model : OutlierModel
  is_trained : Bool
  error_counts : List (String × Nat)

/-- `self.max_requests_per_ip_per_minute`. -/
def max_requests_per_ip_per_minute : Nat := 50

/-- `self.suspicious_user_agents`. -/
def suspicious_user_agents : List String :=
  ["sqlmap", "nmap", "nikto", "dirb", "gobuster", "wfuzz",
   "burp", "zap", "scanner", "bot", "crawler", "spider"]

/-- The `suspicious_endpoints` list in `analyze_request`. -/
def suspicious_endpoints : List String :=
  ["/admin", "/wp-admin", "/phpmyadmin", "/.env", "/config",
   "/api/v1/admin", "/internal", "/debug", "/test"]

/-- The allowed HTTP methods checked by `analyze_request`. -/
def allowed_methods : List String :=
  ["GET", "POST", "PUT", "DELETE", "PATCH"]

/-- Python's `str.lower()` (ASCII case folding), implemented structurally
so that concrete evaluation reduces in the kernel. -/
def strToLower (s : String) : String :=
  ⟨s.data.map Char.toLower⟩

/-- Append one threat string and add `r` to the risk accumulator. -/
def addThreat (t : String) (r : ℚ) (acc : List String × ℚ) :
    List String × ℚ :=
  (acc.1 ++ [t], acc.2 + r)

/-- Rule 1: suspicious user agent (`+0.3`, first match wins). -/
def checkUserAgent (user_agent : String) (acc : List String × ℚ) :
    List String × ℚ :=
  match suspicious_user_agents.find?
      (fun s => strContains (strToLower user_agent) s) with
  | some sua => addThreat ("Suspicious user agent detected: " ++ sua) (3/10) acc
  | none => acc

/-- Rule 2: high request rate from a single IP (`+0.4`). -/
def checkRate (recent_requests : Nat) (acc : List String × ℚ) :
    List String × ℚ :=
  if max_requests_per_ip_per_minute < recent_requests then
    addThreat ("High request rate from IP: " ++ toString recent_requests
      ++ " requests/min") (4/10) acc
  else acc

/-- Rule 3: suspicious endpoint (`+0.2`, first match wins). -/
def checkEndpoint (endpoint : String) (acc : List String × ℚ) :
    List String × ℚ :=
  match suspicious_endpoints.find?
      (fun s => strContains (strToLower endpoint) s) with
  | some _ => addThreat ("Suspicious endpoint access: " ++ endpoint) (2/10) acc
  | none => acc

/-- Rule 4: unusual HTTP method (`+0.1`). -/
def checkMethod (method : String) (acc : List String × ℚ) :
    List String × ℚ :=
  if allowed_methods.contains method then acc
  else addThreat ("Unusual HTTP method: " ++ method) (1/10) acc

/-- Rule 5: error-rate pattern; increments the `client_ip:endpoint`
error counter when `status_code >= 400` and adds `+0.3` once the counter
exceeds 10. Returns the updated counter map and accumulator. -/
def checkErrors (ec : List (String × Nat)) (client_ip endpoint : String)
    (status_code : Int) (acc : List String × ℚ) :
    List (String × Nat) × (List String × ℚ) :=
  if (400 : Int) ≤ status_code then
    let key := client_ip ++ ":" ++ endpoint
    let c := alget 0 ec key + 1
    let ec1 := alset ec key c
    if 10 < c then
      (ec1, addThreat ("High error rate for " ++ client_ip ++ " on "
        ++ endpoint) (3/10) acc)
    else (ec1, acc)
  else (ec, acc)

/-- Rule 6 (ML stage): when the model is trained and the post-record
window is nonempty, score `[window, len ua, len endpoint, status,
risk-so-far]` and add `+0.5` when flagged as an outlier. -/
def mlCheck (trained : Bool) (model : OutlierModel) (recent_requests : Nat)
    (user_agent endpoint : String) (status_code : Int)
    (acc : List String × ℚ) : List String × ℚ :=
  if trained && decide (0 < recent_requests) then
    if model.isOutlier [(recent_requests : ℚ), (user_agent.length : ℚ),
        (endpoint.length : ℚ), (status_code : ℚ), acc.2] then
      addThreat "ML-detected security anomaly" (1/2) acc
    else acc
  else acc

/-- Append the current timestamp to a client's window and prune, from
the front, every entry strictly older than `t - 60` (the
append-then-`popleft`-while loop in `analyze_request`). -/
def pruneWindow (l : List ℚ) (t : ℚ) : List ℚ :=
  (l ++ [t]).dropWhile (fun x => decide (x < t - 60))

/-- `SecurityMonitor.analyze_request`: updates the tracker state,
evaluates rules 1–6 in order against an additive risk accumulator and
returns a fresh `ThreatAssessment` together with the updated state. -/
def analyze_request (m : SecurityMonitor) (req : RequestData)
    (current_time : ℚ) : ThreatAssessment × SecurityMonitor :=
  let client_ip := req.client_ip
  let counts1 := alset m.ip_request_counts client_ip
    (alget 0 m.ip_request_counts client_ip + 1)
  let times1 := pruneWindow (alget [] m.ip_request_times client_ip)
    current_time
  let recent_requests := times1.length
  let acc1 := checkUserAgent req.user_agent ([], 0)
  let acc2 := checkRate recent_requests acc1
  let acc3 := checkEndpoint req.endpoint acc2
  let acc4 := checkMethod req.method acc3
  let step5 := checkErrors m.error_counts client_ip req.endpoint
    req.status_code acc4
  let acc6 := mlCheck m.is_trained m.security_model recent_requests
    req.user_agent req.endpoint req.status_code step5.2
  (⟨acc6.1, min acc6.2 1, decide ((1 : ℚ)/2 < acc6.2), client_ip,
      current_time, req.user_agent, req.endpoint, req.method,
      req.status_code⟩,
   { m with ip_request_counts := counts1,
            ip_request_times := alset m.ip_request_times client_ip times1,
            error_counts := step5.1 })

/-- One entry of the historical training data handed to
`train_security_model` (the dict keys it reads, with their defaults). -/
structure HistSample where
  requests_per_minute : ℚ
  user_agent_length : ℚ
  endpoint_length : ℚ
  status_code : ℚ
  risk_score : ℚ

/-- `SecurityMonitor.train_security_model`: extracts feature vectors,
fails closed (returns `false`, state untouched) on fewer than 10
samples, otherwise installs the fitted model and sets the trained flag.
The library `fit` is a black-box parameter. -/
def train_security_model (fit : List (List ℚ) → OutlierModel)
    (m : SecurityMonitor) (historical : List HistSample) :
    Bool × SecurityMonitor :=
  let features := historical.map (fun d =>
    [d.requests_per_minute, d.user_agent_length, d.endpoint_length,
     d.status_code, d.risk_score])
  if features.length < 10 then (false, m)
  else (true, { m with security_model := fit features, is_trained := true })

/-- The value returned by `get_security_summary`. -/
structure SecuritySummary where
  active_ips : Nat
  high_risk_ips : Nat
  total_requests_tracked : Nat
  model_trained : Bool
  suspicious_patterns_count : Nat

/-- `SecurityMonitor.get_security_summary`: counts active IPs (last
stored timestamp within the trailing minute) and high-risk IPs (stored
window length above the per-IP threshold, with no re-pruning). -/
def get_security_summary (m : SecurityMonitor) (current_time : ℚ) :
    SecuritySummary :=
  let minute_ago := current_time - 60
  { active_ips := (m.ip_request_times.filter (fun p =>
      !p.2.isEmpty && decide (minute_ago < p.2.getLastD 0))).length,
    high_risk_ips := (m.ip_request_times.filter (fun p =>
      decide (max_requests_per_ip_per_minute < p.2.length))).length,
    total_requests_tracked := (m.ip_request_counts.map (fun p => p.2)).sum,
    model_trained := m.is_trained,
    suspicious_patterns_count := m.suspicious_patterns.length }

/-- `SecurityMonitor.reset_counters`: clears the request counts, empties
every client's window (keys survive, deques are cleared), clears the
user-agent counts, the suspicious patterns and the error counters. -/
def reset_counters (m : SecurityMonitor) : SecurityMonitor :=
  { m with ip_request_counts := [],
           ip_request_times := m.ip_request_times.map (fun p => (p.1, [])),
           user_agents := [],
           suspicious_patterns := [],
           error_counts := [] }

/-! The metrics anomaly detection path of `main.py`: the module-level
`isolation_forest`, `scaler`, `is_model_trained` globals and the
`/train` and `/detect` endpoint bodies. -/

/-- Black-box fitted `StandardScaler` (only its `transform` is visible
to the scoring path). -/
structure Scaler where
  transform : List ℚ → List ℚ

/-- One `MetricsData` observation. -/
structure MetricsData where
  cpu_usage : ℚ
  memory_usage : ℚ
  response_time : ℚ
  request_count : ℚ
  error_rate : ℚ

/-- The feature row `/train` and `/detect` build from a `MetricsData`
observation, in source order. -/
def metricFeatures (d : MetricsData) : List ℚ :=
  [d.cpu_usage, d.memory_usage, d.response_time, d.request_count,
   d.error_rate]

/-- The value returned by `/detect`. -/
structure AnomalyResult where
  is_anomaly : Bool
  anomaly_score : ℚ
  metrics : List ℚ
  timestamp : ℚ

/-- The module-level mutable state of the metrics path. -/
structure MetricsState where
  isolation_forest : OutlierModel
  scaler : Scaler
  is_model_trained : Bool

/-- The initial metrics state: `is_model_trained = False` before any
`/train` call; the model and scaler slots hold unfit placeholders the
untrained path never consults. -/
def initialMetricsState : MetricsState :=
  { isolation_forest := { decision := fun _ => 0, isOutlier := fun _ => false },
    scaler := { transform := fun x => x },
    is_model_trained := false }

/-- The `/train` endpoint body (`train_model` in `main.py`): builds the
feature rows, fits the scaler and the model on the scaled batch and sets
the trained flag; an empty batch makes `fit_transform` raise, surfaced
as the endpoint's 500 error. The library fits are black-box
parameters. -/
def train_model (fitScaler : List (List ℚ) → Scaler)
    (fitForest : List (List ℚ) → OutlierModel) (st : MetricsState)
    (data : List MetricsData) : Except String MetricsState :=
  if data.isEmpty then .error "Training failed"
  else
    let rows := data.map metricFeatures
    let sc := fitScaler rows
    let scaled := rows.map sc.transform
    .ok { isolation_forest := fitForest scaled, scaler := sc,
          is_model_trained := true }

/-- The `/detect` endpoint body (`detect_anomaly` in `main.py`): rejects
when the model is untrained, otherwise scales the features, scores them
and classifies via `predict == -1`. -/
def detect_anomaly (st : MetricsState) (d : MetricsData) (now : ℚ) :
    Except String AnomalyResult :=
  if st.is_model_trained then
    let scaled := st.scaler.transform (metricFeatures d)
    .ok { is_anomaly := st.isolation_forest.isOutlier scaled,
          anomaly_score := st.isolation_forest.decision scaled,
          metrics := metricFeatures d,
          timestamp := now }
  else .error "Model not trained yet"

/-- `true` exactly when a `/train` result is a success whose resulting
state has the trained flag set. -/
def trainInstalledModel (r : Except String MetricsState) : Bool :=
  match r with
  | .ok st => st.is_model_trained
  | .error _ => false

/-! Per-rule threat lists and risk contributions, used to state what the
sequential accumulator of `analyze_request` computes. -/

/-- Threat strings contributed by rule 1. -/
def uaThreats (ua : String) : List String :=
  match suspicious_user_agents.find? (fun s => strContains (strToLower ua) s) with
  | some sua => ["Suspicious user agent detected: " ++ sua]
  | none => []

/-- Risk contributed by rule 1. -/
def uaContrib (ua : String) : ℚ :=
  match suspicious_user_agents.find? (fun s => strContains (strToLower ua) s) with
  | some _ => 3/10
  | none => 0

/-- Threat strings contributed by rule 2. -/
def rateThreats (recent : Nat) : List String :=
  if max_requests_per_ip_per_minute < recent then
    ["High request rate from IP: " ++ toString recent ++ " requests/min"]
  else []

/-- Risk contributed by rule 2. -/
def rateContrib (recent : Nat) : ℚ :=
  if max_requests_per_ip_per_minute < recent then 4/10 else 0

/-- Threat strings contributed by rule 3. -/
def epThreats (endpoint : String) : List String :=
  match suspicious_endpoints.find? (fun s => strContains (strToLower endpoint) s) with
  | some _ => ["Suspicious endpoint access: " ++ endpoint]
  | none => []

/-- Risk contributed by rule 3. -/
def epContrib (endpoint : String) : ℚ :=
  match suspicious_endpoints.find? (fun s => strContains (strToLower endpoint) s) with
  | some _ => 2/10
  | none => 0

/-- Threat strings contributed by rule 4. -/
def methodThreats (method : String) : List String :=
  if allowed_methods.contains method then []
  else ["Unusual HTTP method: " ++ method]

/-- Risk contributed by rule 4. -/
def methodContrib (method : String) : ℚ :=
  if allowed_methods.contains method then 0 else 1/10

/-- Threat strings contributed by rule 5. -/
def errThreats (ec : List (String × Nat)) (client_ip endpoint : String)
    (status_code : Int) : List String :=
  if (400 : Int) ≤ status_code ∧
      10 < alget 0 ec (client_ip ++ ":" ++ endpoint) + 1 then
    ["High error rate for " ++ client_ip ++ " on " ++ endpoint]
  else []

/-- Risk contributed by rule 5. -/
def errContrib (ec : List (String × Nat)) (client_ip endpoint : String)
    (status_code : Int) : ℚ :=
  if (400 : Int) ≤ status_code ∧
      10 < alget 0 ec (client_ip ++ ":" ++ endpoint) + 1 then 3/10
  else 0

/-- The error-counter map after rule 5. -/
def errMap (ec : List (String × Nat)) (client_ip endpoint : String)
    (status_code : Int) : List (String × Nat) :=
  if (400 : Int) ≤ status_code then
    alset ec (client_ip ++ ":" ++ endpoint)
      (alget 0 ec (client_ip ++ ":" ++ endpoint) + 1)
  else ec

/-- The feature vector the ML stage scores, with `pre` the risk
accumulated from rules 1–5. -/
def mlFeatures (recent : Nat) (ua ep : String) (status : Int) (pre : ℚ) :
    List ℚ :=
  [(recent : ℚ), (ua.length : ℚ), (ep.length : ℚ), (status : ℚ), pre]

/-- Threat strings contributed by the ML stage. -/
def mlThreats (trained : Bool) (model : OutlierModel) (recent : Nat)
    (ua ep : String) (status : Int) (pre : ℚ) : List String :=
  if trained && decide (0 < recent) then
    if model.isOutlier (mlFeatures recent ua ep status pre) then
      ["ML-detected security anomaly"]
    else []
  else []

/-- Risk contributed by the ML stage. -/
def mlContrib (trained : Bool) (model : OutlierModel) (recent : Nat)
    (ua ep : String) (status : Int) (pre : ℚ) : ℚ :=
  if trained && decide (0 < recent) then
    if model.isOutlier (mlFeatures recent ua ep status pre) then 1/2 else 0
  else 0

/-- The client's post-record pruned window for one `analyze_request`
call. -/
def newWindow (m : SecurityMonitor) (req : RequestData) (t : ℚ) : List ℚ :=
  pruneWindow (alget [] m.ip_request_times req.client_ip) t

/-- Risk accumulated by rules 1–5 of one `analyze_request` call. -/
def preRisk (m : SecurityMonitor) (req : RequestData) (t : ℚ) : ℚ :=
  uaContrib req.user_agent + rateContrib (newWindow m req t).length
    + epContrib req.endpoint + methodContrib req.method
    + errContrib m.error_counts req.client_ip req.endpoint req.status_code

/-- Threat strings produced by rules 1–5 of one `analyze_request` call,
in evaluation order. -/
def preThreats (m : SecurityMonitor) (req : RequestData) (t : ℚ) :
    List String :=
  uaThreats req.user_agent ++ rateThreats (newWindow m req t).length
    ++ epThreats req.endpoint ++ methodThreats req.method
    ++ errThreats m.error_counts req.client_ip req.endpoint req.status_code

/-- Total risk accumulated by rules 1–6 of one `analyze_request` call
(before the final cap at 1). -/
def totalRisk (m : SecurityMonitor) (req : RequestData) (t : ℚ) : ℚ :=
  preRisk m req t + mlContrib m.is_trained m.security_model
    (newWindow m req t).length req.user_agent req.endpoint req.status_code
    (preRisk m req t)

/-- All threat strings of one `analyze_request` call, in evaluation
order. -/
def totalThreats (m : SecurityMonitor) (req : RequestData) (t : ℚ) :
    List String :=
  preThreats m req t ++ mlThreats m.is_trained m.security_model
    (newWindow m req t).length req.user_agent req.endpoint req.status_code
    (preRisk m req t)

theorem checkUserAgent_eq (ua : String) (acc : List String × ℚ) :
    checkUserAgent ua acc = (acc.1 ++ uaThreats ua, acc.2 + uaContrib ua) := by
  unfold checkUserAgent uaThreats uaContrib
  cases h : suspicious_user_agents.find? (fun s => strContains (strToLower ua) s) with
  | none => simp
  | some sua => simp [addThreat]

theorem checkRate_eq (recent : Nat) (acc : List String × ℚ) :
    checkRate recent acc = (acc.1 ++ rateThreats recent,
      acc.2 + rateContrib recent) := by
  unfold checkRate rateThreats rateContrib
  by_cases h : max_requests_per_ip_per_minute < recent <;> simp [h, addThreat]

theorem checkEndpoint_eq (ep : String) (acc : List String × ℚ) :
    checkEndpoint ep acc = (acc.1 ++ epThreats ep, acc.2 + epContrib ep) := by
  unfold checkEndpoint epThreats epContrib
  cases h : suspicious_endpoints.find? (fun s => strContains (strToLower ep) s) with
  | none => simp
  | some sep => simp [addThreat]

theorem checkMethod_eq (method : String) (acc : List String × ℚ) :
    checkMethod method acc = (acc.1 ++ methodThreats method,
      acc.2 + methodContrib method) := by
  unfold checkMethod methodThreats methodContrib
  by_cases h : method ∈ allowed_methods <;> simp [h, addThreat]

theorem checkErrors_eq (ec : List (String × Nat)) (c e : String) (s : Int)
    (acc : List String × ℚ) :
    checkErrors ec c e s acc = (errMap ec c e s,
      (acc.1 ++ errThreats ec c e s, acc.2 + errContrib ec c e s)) := by
  unfold checkErrors errMap errThreats errContrib
  by_cases h4 : (400 : Int) ≤ s
  · by_cases h10 : 10 < alget 0 ec (c ++ ":" ++ e) + 1 <;>
      simp [h4, h10, addThreat]
  · simp [h4]

theorem mlCheck_eq (trained : Bool) (model : OutlierModel) (recent : Nat)
    (ua ep : String) (status : Int) (acc : List String × ℚ) :
    mlCheck trained model recent ua ep status acc =
      (acc.1 ++ mlThreats trained model recent ua ep status acc.2,
       acc.2 + mlContrib trained model recent ua ep status acc.2) := by
  unfold mlCheck mlThreats mlContrib mlFeatures
  by_cases hg : trained && decide (0 < recent)
  · by_cases ho : model.isOutlier [(recent : ℚ), (ua.length : ℚ),
        (ep.length : ℚ), (status : ℚ), acc.2] <;>
      simp [hg, ho, addThreat]
  · simp [hg]

theorem alget_alset_self {α : Type} (d : α) (l : List (String × α))
    (k : String) (v : α) : alget d (alset l k v) k = v := by
  induction l with
  | nil => simp [alget, alset]
  | cons p rest ih =>
    by_cases h : p.1 == k
    · simp [alget, alset, h]
    · simpa [alget, alset, h] using ih

theorem alget_map_nil (l : List (String × List ℚ)) (k : String) :
    alget [] (l.map (fun p => (p.1, ([] : List ℚ)))) k = [] := by
  induction l with
  | nil => rfl
  | cons p rest ih =>
    by_cases h : p.1 == k
    · simp [alget, h]
    · simpa [alget, h] using ih

theorem mem_of_mem_dropWhile {α : Type} {p : α → Bool} {l : List α} {x : α}
    (h : x ∈ l.dropWhile p) : x ∈ l := by
  induction l with
  | nil => simpa using h
  | cons a rest ih =>
    by_cases hp : p a = true
    · rw [List.dropWhile_cons_of_pos hp] at h
      exact List.mem_cons_of_mem a (ih h)
    · rw [List.dropWhile_cons_of_neg hp] at h
      exact h

theorem sorted_dropWhile_lt_lower {c : ℚ} {l : List ℚ}
    (hs : l.Sorted (· ≤ ·)) {x : ℚ}
    (hx : x ∈ l.dropWhile (fun y => decide (y < c))) : c ≤ x := by
  induction l with
  | nil => simpa using hx
  | cons a rest ih =>
    rw [List.sorted_cons] at hs
    by_cases ha : a < c
    · rw [List.dropWhile_cons_of_pos (by simpa using ha)] at hx
      exact ih hs.2 hx
    · rw [List.dropWhile_cons_of_neg (by simpa using ha)] at hx
      rcases List.mem_cons.mp hx with rfl | hx'
      · exact not_lt.mp ha
      · exact le_trans (not_lt.mp ha) (hs.1 x hx')

theorem sorted_dropWhile {α : Type} {r : α → α → Prop} {p : α → Bool}
    {l : List α} (hs : l.Sorted r) : (l.dropWhile p).Sorted r := by
  induction l with
  | nil => simpa using hs
  | cons a rest ih =>
    rw [List.sorted_cons] at hs
    by_cases hp : p a = true
    · rw [List.dropWhile_cons_of_pos hp]
      exact ih hs.2
    · rw [List.dropWhile_cons_of_neg hp]
      exact List.sorted_cons.mpr hs

theorem dropWhile_eq_self_of_forall {α : Type} {p : α → Bool}
    {l : List α} (h : ∀ x ∈ l, ¬p x = true) : l.dropWhile p = l := by
  cases l with
  | nil => rfl
  | cons a rest =>
    exact List.dropWhile_cons_of_neg (h a (List.mem_cons_self a rest))

theorem pruneWindow_ne_nil (l : List ℚ) (t : ℚ) : pruneWindow l t ≠ [] := by
  unfold pruneWindow
  intro h
  have hall := List.dropWhile_eq_nil_iff.mp h t (by simp)
  simp only [decide_eq_true_eq] at hall
  linarith

theorem uaContrib_nonneg (ua : String) : 0 ≤ uaContrib ua := by
  unfold uaContrib
  cases suspicious_user_agents.find? (fun s => strContains (strToLower ua) s) <;>
    norm_num

theorem rateContrib_nonneg (n : Nat) : 0 ≤ rateContrib n := by
  unfold rateContrib
  split <;> norm_num

theorem epContrib_nonneg (ep : String) : 0 ≤ epContrib ep := by
  unfold epContrib
  cases suspicious_endpoints.find? (fun s => strContains (strToLower ep) s) <;>
    norm_num

theorem methodContrib_nonneg (mth : String) : 0 ≤ methodContrib mth := by
  unfold methodContrib
  split <;> norm_num

theorem errContrib_nonneg (ec : List (String × Nat)) (c e : String)
    (s : Int) : 0 ≤ errContrib ec c e s := by
  unfold errContrib
  split <;> norm_num

theorem mlContrib_nonneg (b : Bool) (mdl : OutlierModel) (n : Nat)
    (ua ep : String) (s : Int) (pre : ℚ) :
    0 ≤ mlContrib b mdl n ua ep s pre := by
  unfold mlContrib
  split
  · split <;> norm_num
  · norm_num

theorem preRisk_nonneg (m : SecurityMonitor) (req : RequestData) (t : ℚ) :
    0 ≤ preRisk m req t := by
  unfold preRisk
  have h1 := uaContrib_nonneg req.user_agent
  have h2 := rateContrib_nonneg (newWindow m req t).length
  have h3 := epContrib_nonneg req.endpoint
  have h4 := methodContrib_nonneg req.method
  have h5 := errContrib_nonneg m.error_counts req.client_ip req.endpoint
    req.status_code
  linarith

theorem totalRisk_nonneg (m : SecurityMonitor) (req : RequestData) (t : ℚ) :
    0 ≤ totalRisk m req t := by
  unfold totalRisk
  have h1 := preRisk_nonneg m req t
  have h2 := mlContrib_nonneg m.is_trained m.security_model
    (newWindow m req t).length req.user_agent req.endpoint req.status_code
    (preRisk m req t)
  linarith

theorem uaThreats_nil_iff (ua : String) :
    uaThreats ua = [] ↔ uaContrib ua = 0 := by
  unfold uaThreats uaContrib
  cases suspicious_user_agents.find? (fun s => strContains (strToLower ua) s) <;>
    norm_num

theorem rateThreats_nil_iff (n : Nat) :
    rateThreats n = [] ↔ rateContrib n = 0 := by
  unfold rateThreats rateContrib
  split <;> norm_num

theorem epThreats_nil_iff (ep : String) :
    epThreats ep = [] ↔ epContrib ep = 0 := by
  unfold epThreats epContrib
  cases suspicious_endpoints.find? (fun s => strContains (strToLower ep) s) <;>
    norm_num

theorem methodThreats_nil_iff (mth : String) :
    methodThreats mth = [] ↔ methodContrib mth = 0 := by
  unfold methodThreats methodContrib
  split <;> norm_num

theorem errThreats_nil_iff (ec : List (String × Nat)) (c e : String)
    (s : Int) : errThreats ec c e s = [] ↔ errContrib ec c e s = 0 := by
  unfold errThreats errContrib
  split <;> norm_num

theorem mlThreats_nil_iff (b : Bool) (mdl : OutlierModel) (n : Nat)
    (ua ep : String) (s : Int) (pre : ℚ) :
    mlThreats b mdl n ua ep s pre = [] ↔ mlContrib b mdl n ua ep s pre = 0 := by
  unfold mlThreats mlContrib
  split
  · split <;> norm_num
  · norm_num

/-- `analyze_request` factored through the per-rule contributions: the
returned assessment is the concatenated threat strings, the capped sum
of the per-rule risks, and the threshold test on the uncapped sum; the
new state carries the bumped request count, the pruned window and the
updated error counters. -/
theorem analyze_request_decomp (m : SecurityMonitor) (req : RequestData)
    (t : ℚ) :
    analyze_request m req t =
      (⟨totalThreats m req t, min (totalRisk m req t) 1,
          decide ((1 : ℚ)/2 < totalRisk m req t), req.client_ip, t,
          req.user_agent, req.endpoint, req.method, req.status_code⟩,
       { m with
          ip_request_counts := alset m.ip_request_counts req.client_ip
            (alget 0 m.ip_request_counts req.client_ip + 1),
          ip_request_times := alset m.ip_request_times req.client_ip
            (newWindow m req t),
          error_counts := errMap m.error_counts req.client_ip req.endpoint
            req.status_code }) := by
  unfold analyze_request totalThreats totalRisk preThreats preRisk newWindow
  simp only [checkUserAgent_eq, checkRate_eq, checkEndpoint_eq,
    checkMethod_eq, checkErrors_eq, mlCheck_eq, List.nil_append,
    List.append_assoc, zero_add, add_assoc]

/-- A placeholder outlier model that never flags anything (stands for
the unfit `IsolationForest` slot of a fresh monitor). -/
def dummyModel : OutlierModel :=
  { decision := fun _ => 0, isOutlier := fun _ => false }

/-- An outlier model that flags every point. -/
def alwaysOutlier : OutlierModel :=
  { decision := fun _ => 0, isOutlier := fun _ => true }

/-- The identity scaler. -/
def idScaler : Scaler := { transform := fun x => x }

/-- A fresh `SecurityMonitor` as built by `__init__` (empty maps,
unfit model, `is_trained = False`). -/
def initialSecurityMonitor : SecurityMonitor :=
  { ip_request_counts := [], ip_request_times := [], user_agents := [],
    suspicious_patterns := [], security_model := dummyModel,
    is_trained := false, error_counts := [] }

/-- The threats list and the risk accumulator of `analyze_request` grow
together: the final risk is positive exactly when some threat string was
appended. -/
theorem totalThreats_nil_iff (m : SecurityMonitor) (req : RequestData)
    (t : ℚ) : totalThreats m req t = [] ↔ totalRisk m req t = 0 := by
  have h1 := uaContrib_nonneg req.user_agent
  have h2 := rateContrib_nonneg (newWindow m req t).length
  have h3 := epContrib_nonneg req.endpoint
  have h4 := methodContrib_nonneg req.method
  have h5 := errContrib_nonneg m.error_counts req.client_ip req.endpoint
    req.status_code
  have h6 := mlContrib_nonneg m.is_trained m.security_model
    (newWindow m req t).length req.user_agent req.endpoint req.status_code
    (preRisk m req t)
  have hP : preRisk m req t = uaContrib req.user_agent
      + rateContrib (newWindow m req t).length + epContrib req.endpoint
      + methodContrib req.method + errContrib m.error_counts req.client_ip
        req.endpoint req.status_code := rfl
  unfold totalThreats totalRisk preThreats
  simp only [List.append_eq_nil]
  rw [uaThreats_nil_iff, rateThreats_nil_iff, epThreats_nil_iff,
    methodThreats_nil_iff, errThreats_nil_iff, mlThreats_nil_iff]
  constructor
  · rintro ⟨⟨⟨⟨⟨g1, g2⟩, g3⟩, g4⟩, g5⟩, g6⟩
    rw [g6, hP, g1, g2, g3, g4, g5]
    ring
  · intro h
    refine ⟨⟨⟨⟨⟨?_, ?_⟩, ?_⟩, ?_⟩, ?_⟩, ?_⟩ <;> linarith

/-- C3: for every input and every tracker state, the `ThreatAssessment`
returned by `analyze_request` has `risk_score` in `[0, 1]`, and
`is_threat` is true exactly when `risk_score > 0.5`. -/
theorem analyze_request_risk_bounds (m : SecurityMonitor)
    (req : RequestData) (t : ℚ) :
    0 ≤ (analyze_request m req t).1.risk_score ∧
    (analyze_request m req t).1.risk_score ≤ 1 ∧
    ((analyze_request m req t).1.is_threat = true ↔
      1/2 < (analyze_request m req t).1.risk_score) := by
  rw [analyze_request_decomp]
  dsimp only
  refine ⟨le_min (totalRisk_nonneg m req t) (by norm_num),
    min_le_right _ _, ?_⟩
  rw [lt_min_iff]
  simp only [decide_eq_true_eq]
  constructor
  · intro h
    exact ⟨h, by norm_num⟩
  · intro h
    exact h.1

/-- C8: the returned `risk_score` is positive exactly when the returned
threats list is non-empty; moreover each rule appends exactly one threat
string precisely when it contributes positive risk. -/
theorem analyze_request_risk_pos_iff_threats (m : SecurityMonitor)
    (req : RequestData) (t : ℚ) :
    (0 < (analyze_request m req t).1.risk_score ↔
      (analyze_request m req t).1.threats ≠ []) ∧
    (0 < uaContrib req.user_agent ↔ (uaThreats req.user_agent).length = 1) ∧
    (0 < rateContrib (newWindow m req t).length ↔
      (rateThreats (newWindow m req t).length).length = 1) ∧
    (0 < epContrib req.endpoint ↔ (epThreats req.endpoint).length = 1) ∧
    (0 < methodContrib req.method ↔ (methodThreats req.method).length = 1) ∧
    (0 < errContrib m.error_counts req.client_ip req.endpoint req.status_code
      ↔ (errThreats m.error_counts req.client_ip req.endpoint
          req.status_code).length = 1) ∧
    (0 < mlContrib m.is_trained m.security_model (newWindow m req t).length
        req.user_agent req.endpoint req.status_code (preRisk m req t) ↔
      (mlThreats m.is_trained m.security_model (newWindow m req t).length
        req.user_agent req.endpoint req.status_code
        (preRisk m req t)).length = 1) := by
  refine ⟨?_, ?_, ?_, ?_, ?_, ?_, ?_⟩
  · rw [analyze_request_decomp]
    dsimp only
    have hnn := totalRisk_nonneg m req t
    rw [lt_min_iff]
    constructor
    · rintro ⟨hpos, -⟩ hnil
      have := (totalThreats_nil_iff m req t).mp hnil
      linarith
    · intro hne
      refine ⟨?_, by norm_num⟩
      rcases lt_or_eq_of_le hnn with h | h
      · exact h
      · exact absurd ((totalThreats_nil_iff m req t).mpr h.symm) hne
  · unfold uaContrib uaThreats
    cases suspicious_user_agents.find?
        (fun s => strContains (strToLower req.user_agent) s) <;> norm_num
  · unfold rateContrib rateThreats
    split <;> norm_num
  · unfold epContrib epThreats
    cases suspicious_endpoints.find?
        (fun s => strContains (strToLower req.endpoint) s) <;> norm_num
  · unfold methodContrib methodThreats
    split <;> norm_num
  · unfold errContrib errThreats
    split <;> norm_num
  · unfold mlContrib mlThreats
    split
    · split <;> norm_num
    · norm_num

/-- C9: `analyze_request` appends the current timestamp before pruning,
so the stored post-record window always has at least one entry, and the
ML-stage guard `is_trained and recent_requests > 0` collapses to the
trained flag alone. -/
theorem analyze_request_window_nonempty_ml_guard (m : SecurityMonitor)
    (req : RequestData) (t : ℚ) :
    1 ≤ (alget [] (analyze_request m req t).2.ip_request_times
      req.client_ip).length ∧
    (m.is_trained && decide (0 < (newWindow m req t).length))
      = m.is_trained := by
  have hne : newWindow m req t ≠ [] :=
    pruneWindow_ne_nil (alget [] m.ip_request_times req.client_ip) t
  have hpos : 0 < (newWindow m req t).length := List.length_pos.mpr hne
  constructor
  · rw [analyze_request_decomp]
    dsimp only
    rw [alget_alset_self]
    exact hpos
  · cases m.is_trained <;> simp [hpos]

/-- A monitor whose only tracked client `"c"` has one stored timestamp
at time `0`, exactly 60 seconds before the probe time `60`. -/
def monitorAtBoundary : SecurityMonitor :=
  { initialSecurityMonitor with ip_request_times := [("c", [0])] }

/-- A benign request from client `"c"`. -/
def benignRequest : RequestData :=
  { client_ip := "c", user_agent := "", endpoint := "", method := "GET",
    status_code := 200 }

/-- C2 counterexample: the pruning loop keeps entries with timestamp
exactly `t - 60` (the comparison is strict), so after a call at `t = 60`
the window still holds the timestamp `0`, which is not strictly greater
than `t - 60`. -/
theorem analyze_request_window_boundary_kept :
    (0 : ℚ) ∈ alget [] (analyze_request monitorAtBoundary benignRequest
      60).2.ip_request_times "c" ∧ ¬((60 : ℚ) - 60 < 0) := by
  constructor
  · rw [analyze_request_decomp]
    dsimp only
    rw [show benignRequest.client_ip = "c" from rfl, alget_alset_self]
    have h1 : newWindow monitorAtBoundary benignRequest 60 = [0, 60] := by
      show (((alget ([] : List ℚ) monitorAtBoundary.ip_request_times
        benignRequest.client_ip) ++ [60]).dropWhile
          (fun x : ℚ => decide (x < 60 - 60))) = ([0, 60] : List ℚ)
      rw [show alget ([] : List ℚ) monitorAtBoundary.ip_request_times
        benignRequest.client_ip = [0] from rfl]
      rw [show (([0] : List ℚ) ++ [60]) = [0, 60] from rfl]
      norm_num [List.dropWhile_cons]
    rw [h1]
    simp
  · norm_num

/-- C2 (amended): if the client's stored window is ascending with all
entries at most `t`, then after `analyze_request` at time `t` the
client's window contains only timestamps in the closed interval
`[t - 60, t]` (entries equal to `t - 60` survive the strict comparison),
in ascending order. -/
theorem analyze_request_window_interval (m : SecurityMonitor)
    (req : RequestData) (t : ℚ)
    (hs : (alget [] m.ip_request_times req.client_ip).Sorted (· ≤ ·))
    (hle : ∀ x ∈ alget [] m.ip_request_times req.client_ip, x ≤ t) :
    (alget [] (analyze_request m req t).2.ip_request_times
      req.client_ip).Sorted (· ≤ ·) ∧
    ∀ x ∈ alget [] (analyze_request m req t).2.ip_request_times
      req.client_ip, t - 60 ≤ x ∧ x ≤ t := by
  rw [analyze_request_decomp]
  dsimp only
  rw [alget_alset_self]
  have hsl : ((alget [] m.ip_request_times req.client_ip)
      ++ [t]).Sorted (· ≤ ·) := by
    rw [List.Sorted, List.pairwise_append]
    refine ⟨hs, List.pairwise_singleton _ _, ?_⟩
    intro a ha b hb
    rw [List.mem_singleton] at hb
    subst hb
    exact hle a ha
  constructor
  · exact sorted_dropWhile hsl
  · intro x hx
    refine ⟨sorted_dropWhile_lt_lower hsl hx, ?_⟩
    have hxmem := mem_of_mem_dropWhile hx
    rcases List.mem_append.mp hxmem with h | h
    · exact hle x h
    · rw [List.mem_singleton] at h
      exact h.le

/-- Witness: the amended C2 theorem applied to a concrete monitor whose
stored window is `[0]`, probed at `t = 60`. -/
theorem analyze_request_window_interval_witness :
    (alget [] (analyze_request monitorAtBoundary benignRequest
      60).2.ip_request_times benignRequest.client_ip).Sorted (· ≤ ·) ∧
    ∀ x ∈ alget [] (analyze_request monitorAtBoundary benignRequest
      60).2.ip_request_times benignRequest.client_ip,
      (60 : ℚ) - 60 ≤ x ∧ x ≤ 60 :=
  analyze_request_window_interval monitorAtBoundary benignRequest 60
    (by
      rw [show alget ([] : List ℚ) monitorAtBoundary.ip_request_times
        benignRequest.client_ip = [0] from rfl]
      exact List.sorted_singleton 0)
    (by
      intro x hx
      rw [show alget ([] : List ℚ) monitorAtBoundary.ip_request_times
        benignRequest.client_ip = [0] from rfl, List.mem_singleton] at hx
      rw [hx]
      norm_num)

theorem mlContrib_untrained (mdl : OutlierModel) (n : Nat) (ua ep : String)
    (s : Int) (pre : ℚ) : mlContrib false mdl n ua ep s pre = 0 := by
  unfold mlContrib
  simp

/-- C4 (amended): with an untrained model, from the same state, two
requests identical except for the user agent, one matching the denylist
and one not: the flagged risk score equals the unflagged one plus 0.3
before the cap, hence is at least `min (unflagged + 0.3, 1)`; the gap
can fall below 0.3 only through the cap at 1. -/
theorem flagged_ua_risk_gap (m : SecurityMonitor) (req : RequestData)
    (t : ℚ) (u v : String)
    (hun : m.is_trained = false)
    (h1 : (suspicious_user_agents.find?
      (fun s => strContains (strToLower u) s)).isSome = true)
    (h2 : suspicious_user_agents.find?
      (fun s => strContains (strToLower v) s) = none) :
    (analyze_request m { req with user_agent := v } t).1.risk_score ≤
      (analyze_request m { req with user_agent := u } t).1.risk_score ∧
    min ((analyze_request m { req with user_agent := v } t).1.risk_score
        + 3/10) 1 ≤
      (analyze_request m { req with user_agent := u } t).1.risk_score := by
  rw [analyze_request_decomp m { req with user_agent := v } t,
    analyze_request_decomp m { req with user_agent := u } t]
  dsimp only
  have hwin : ∀ w : String,
      newWindow m { req with user_agent := w } t = newWindow m req t := by
    intro w
    unfold newWindow
    rfl
  have hml : ∀ w : String, totalRisk m { req with user_agent := w } t
      = preRisk m { req with user_agent := w } t := by
    intro w
    unfold totalRisk
    rw [hun, mlContrib_untrained, add_zero]
  have hCu : uaContrib u = 3/10 := by
    unfold uaContrib
    obtain ⟨s, hs⟩ := Option.isSome_iff_exists.mp h1
    rw [hs]
  have hCv : uaContrib v = 0 := by
    unfold uaContrib
    rw [h2]
  have hAB : totalRisk m { req with user_agent := u } t
      = totalRisk m { req with user_agent := v } t + 3/10 := by
    rw [hml u, hml v]
    unfold preRisk
    dsimp only
    rw [hwin u, hwin v, hCu, hCv]
    ring
  have hnn := totalRisk_nonneg m { req with user_agent := v } t
  refine ⟨?_, ?_⟩
  · rw [hAB]
    exact min_le_min (by linarith) le_rfl
  · rw [hAB]
    have hm := min_le_left (totalRisk m { req with user_agent := v } t) 1
    exact min_le_min (by linarith) le_rfl

/-- Witness: the amended C4 theorem at a fresh monitor, comparing the
user agents `"sqlmap"` (denylisted) and `"Mozilla"` (clean). -/
theorem flagged_ua_risk_gap_witness :
    (analyze_request initialSecurityMonitor
      { benignRequest with user_agent := "Mozilla" } 0).1.risk_score ≤
      (analyze_request initialSecurityMonitor
        { benignRequest with user_agent := "sqlmap" } 0).1.risk_score ∧
    min ((analyze_request initialSecurityMonitor
        { benignRequest with user_agent := "Mozilla" } 0).1.risk_score
        + 3/10) 1 ≤
      (analyze_request initialSecurityMonitor
        { benignRequest with user_agent := "sqlmap" } 0).1.risk_score :=
  flagged_ua_risk_gap initialSecurityMonitor benignRequest 0 "sqlmap"
    "Mozilla" rfl (by decide) (by decide)

/-- A monitor for which rules 2, 3 and 5 all fire: client `"c"` already
has 50 recent timestamps and 10 recorded errors on `/admin`. -/
def monitorHighActivity : SecurityMonitor :=
  { initialSecurityMonitor with
    ip_request_times := [("c", List.replicate 50 (100 : ℚ))],
    error_counts := [("c:/admin", 10)] }

/-- A scanner request from the saturated client. -/
def attackRequest : RequestData :=
  { client_ip := "c", user_agent := "sqlmap", endpoint := "/admin",
    method := "GET", status_code := 500 }

/-- C4 counterexample: with other rules contributing 0.9, the flagged
request's capped score is 1.0 while the unflagged one's is 0.9, so the
gap is 0.1, not at least 0.3. -/
theorem flagged_ua_risk_gap_counterexample :
    ¬((analyze_request monitorHighActivity
        { attackRequest with user_agent := "x" } 100).1.risk_score + 3/10 ≤
      (analyze_request monitorHighActivity attackRequest
        100).1.risk_score) := by
  have hWeq : newWindow monitorHighActivity attackRequest 100
      = List.replicate 50 (100 : ℚ) ++ [100] := by
    show ((alget [] monitorHighActivity.ip_request_times
      attackRequest.client_ip ++ [100]).dropWhile
        (fun x : ℚ => decide (x < 100 - 60)))
      = List.replicate 50 (100 : ℚ) ++ [100]
    rw [show alget ([] : List ℚ) monitorHighActivity.ip_request_times
      attackRequest.client_ip = List.replicate 50 (100 : ℚ) from rfl]
    apply dropWhile_eq_self_of_forall
    intro x hx
    have hx100 : x = 100 := by
      rcases List.mem_append.mp hx with h | h
      · exact List.eq_of_mem_replicate h
      · simpa using h
    rw [hx100]
    simp only [decide_eq_true_eq]
    norm_num
  have hWlen : (newWindow monitorHighActivity attackRequest 100).length
      = 51 := by
    rw [hWeq]
    simp
  have hWlen2 : (newWindow monitorHighActivity
      { attackRequest with user_agent := "x" } 100).length = 51 := by
    rw [show newWindow monitorHighActivity
      { attackRequest with user_agent := "x" } 100
        = newWindow monitorHighActivity attackRequest 100 from rfl, hWlen]
  have hrate : rateContrib 51 = 4/10 := by
    norm_num [rateContrib, max_requests_per_ip_per_minute]
  have hep : epContrib attackRequest.endpoint = 2/10 := by
    unfold epContrib
    rw [show suspicious_endpoints.find? (fun s =>
      strContains (strToLower attackRequest.endpoint) s)
        = some "/admin" from by decide]
  have hmeth : methodContrib attackRequest.method = 0 := by
    unfold methodContrib
    rw [if_pos (by decide)]
  have herr : errContrib monitorHighActivity.error_counts
      attackRequest.client_ip attackRequest.endpoint
      attackRequest.status_code = 3/10 := by
    unfold errContrib
    rw [if_pos (by decide)]
  have hA : (analyze_request monitorHighActivity attackRequest
      100).1.risk_score = 1 := by
    rw [analyze_request_decomp]
    dsimp only
    have ht : totalRisk monitorHighActivity attackRequest 100 = 12/10 := by
      unfold totalRisk
      rw [show monitorHighActivity.is_trained = false from rfl,
        mlContrib_untrained, add_zero]
      unfold preRisk
      rw [hWlen, hrate, hep, hmeth, herr]
      rw [show uaContrib attackRequest.user_agent = 3/10 from by
        unfold uaContrib
        rw [show suspicious_user_agents.find? (fun s =>
          strContains (strToLower attackRequest.user_agent) s)
            = some "sqlmap" from by decide]]
      norm_num
    rw [ht]
    exact min_eq_right (by norm_num)
  have hB : (analyze_request monitorHighActivity
      { attackRequest with user_agent := "x" } 100).1.risk_score
        = 9/10 := by
    rw [analyze_request_decomp]
    dsimp only
    have ht : totalRisk monitorHighActivity
        { attackRequest with user_agent := "x" } 100 = 9/10 := by
      unfold totalRisk
      rw [show monitorHighActivity.is_trained = false from rfl,
        mlContrib_untrained, add_zero]
      unfold preRisk
      dsimp only
      rw [hWlen2, hrate, hep, hmeth, herr]
      rw [show uaContrib "x" = 0 from by
        unfold uaContrib
        rw [show suspicious_user_agents.find? (fun s =>
          strContains (strToLower "x") s) = none from by decide]]
      norm_num
    rw [ht]
    exact min_eq_left (by norm_num)
  rw [hA, hB]
  norm_num

/-- C5: when the security model is trained (the nonzero-window guard is
then automatically satisfied), the ML stage scores exactly the feature
vector `[window_size, len user_agent, len endpoint, status_code,
rules-1-to-5 risk]`, whose fifth component is the sum of the five rule
contributions; an outlier verdict appends one diagnostic threat string
and adds exactly 0.5 to the accumulator. -/
theorem analyze_request_ml_stage (m : SecurityMonitor) (req : RequestData)
    (t : ℚ) (htr : m.is_trained = true)
    (hw : 0 < (newWindow m req t).length) :
    preRisk m req t = uaContrib req.user_agent
      + rateContrib (newWindow m req t).length + epContrib req.endpoint
      + methodContrib req.method
      + errContrib m.error_counts req.client_ip req.endpoint
          req.status_code ∧
    (analyze_request m req t).1.threats =
      (if m.security_model.isOutlier (mlFeatures (newWindow m req t).length
          req.user_agent req.endpoint req.status_code (preRisk m req t))
       then preThreats m req t ++ ["ML-detected security anomaly"]
       else preThreats m req t) ∧
    (analyze_request m req t).1.risk_score =
      (if m.security_model.isOutlier (mlFeatures (newWindow m req t).length
          req.user_agent req.endpoint req.status_code (preRisk m req t))
       then min (preRisk m req t + 1/2) 1
       else min (preRisk m req t) 1) := by
  have hg : decide (0 < (newWindow m req t).length) = true := by
    simpa using hw
  refine ⟨rfl, ?_, ?_⟩
  · rw [analyze_request_decomp]
    dsimp only
    unfold totalThreats mlThreats
    rw [htr, hg]
    by_cases ho : m.security_model.isOutlier
        (mlFeatures (newWindow m req t).length req.user_agent req.endpoint
          req.status_code (preRisk m req t)) <;>
      simp [ho]
  · rw [analyze_request_decomp]
    dsimp only
    unfold totalRisk mlContrib
    rw [htr, hg]
    by_cases ho : m.security_model.isOutlier
        (mlFeatures (newWindow m req t).length req.user_agent req.endpoint
          req.status_code (preRisk m req t)) <;>
      simp [ho]

/-- A monitor with a trained model that flags every feature vector. -/
def trainedMonitor : SecurityMonitor :=
  { initialSecurityMonitor with
    is_trained := true,
    security_model := alwaysOutlier }

/-- Witness: the C5 theorem applied to a trained monitor and a concrete
request. -/
theorem analyze_request_ml_stage_witness :
    preRisk trainedMonitor benignRequest 0 = uaContrib
        benignRequest.user_agent
      + rateContrib (newWindow trainedMonitor benignRequest 0).length
      + epContrib benignRequest.endpoint
      + methodContrib benignRequest.method
      + errContrib trainedMonitor.error_counts benignRequest.client_ip
          benignRequest.endpoint benignRequest.status_code ∧
    (analyze_request trainedMonitor benignRequest 0).1.threats =
      (if trainedMonitor.security_model.isOutlier
          (mlFeatures (newWindow trainedMonitor benignRequest 0).length
            benignRequest.user_agent benignRequest.endpoint
            benignRequest.status_code (preRisk trainedMonitor benignRequest 0))
       then preThreats trainedMonitor benignRequest 0
          ++ ["ML-detected security anomaly"]
       else preThreats trainedMonitor benignRequest 0) ∧
    (analyze_request trainedMonitor benignRequest 0).1.risk_score =
      (if trainedMonitor.security_model.isOutlier
          (mlFeatures (newWindow trainedMonitor benignRequest 0).length
            benignRequest.user_agent benignRequest.endpoint
            benignRequest.status_code (preRisk trainedMonitor benignRequest 0))
       then min (preRisk trainedMonitor benignRequest 0 + 1/2) 1
       else min (preRisk trainedMonitor benignRequest 0) 1) :=
  analyze_request_ml_stage trainedMonitor benignRequest 0 rfl
    (List.length_pos.mpr (pruneWindow_ne_nil
      (alget [] trainedMonitor.ip_request_times benignRequest.client_ip) 0))

/-- A concrete metrics sample. -/
def mSampleA : MetricsData :=
  { cpu_usage := 1, memory_usage := 2, response_time := 3,
    request_count := 4, error_rate := 5 }

/-- A trained metrics state with placeholder fitted objects. -/
def trainedMetricsState : MetricsState :=
  { isolation_forest := dummyModel, scaler := idScaler,
    is_model_trained := true }

/-- C6: `detect` on the initial (never trained) state, or on any state
whose trained flag is unset, fails with the model-not-trained error and
yields no result; once the flag is set, it normalizes the sample via the
stored scaler, scores it, and classifies it via the outlier predicate. -/
theorem detect_anomaly_spec (st : MetricsState) (d : MetricsData)
    (now : ℚ) :
    detect_anomaly initialMetricsState d now
      = .error "Model not trained yet" ∧
    (st.is_model_trained = false →
      detect_anomaly st d now = .error "Model not trained yet") ∧
    (st.is_model_trained = true →
      detect_anomaly st d now = .ok
        { is_anomaly := st.isolation_forest.isOutlier
            (st.scaler.transform (metricFeatures d)),
          anomaly_score := st.isolation_forest.decision
            (st.scaler.transform (metricFeatures d)),
          metrics := metricFeatures d, timestamp := now }) := by
  refine ⟨rfl, fun h => ?_, fun h => ?_⟩ <;> simp [detect_anomaly, h]

/-- Witness: the C6 theorem at a trained concrete state and a concrete
sample. -/
theorem detect_anomaly_spec_witness :
    detect_anomaly initialMetricsState mSampleA 0
      = .error "Model not trained yet" ∧
    detect_anomaly trainedMetricsState mSampleA 0 = .ok
      { is_anomaly := trainedMetricsState.isolation_forest.isOutlier
          (trainedMetricsState.scaler.transform (metricFeatures mSampleA)),
        anomaly_score := trainedMetricsState.isolation_forest.decision
          (trainedMetricsState.scaler.transform (metricFeatures mSampleA)),
        metrics := metricFeatures mSampleA, timestamp := 0 } :=
  ⟨(detect_anomaly_spec initialMetricsState mSampleA 0).1,
   (detect_anomaly_spec trainedMetricsState mSampleA 0).2.2 rfl⟩

/-- The claim's reading of the high-activity count, following the
spec's words for comparison with `get_security_summary`: clients whose
window, re-pruned to the trailing 60 seconds as of the query time,
exceeds the per-IP threshold. -/
def spec_high_activity_count (m : SecurityMonitor) (current_time : ℚ) :
    Nat :=
  (m.ip_request_times.filter (fun p =>
    decide (max_requests_per_ip_per_minute <
      (p.2.dropWhile (fun x => decide (x < current_time - 60))).length))).length

/-- A monitor whose only client has 51 stored timestamps, all stale by
the query time `1000`. -/
def monitorStaleWindow : SecurityMonitor :=
  { initialSecurityMonitor with
    ip_request_times := [("c", List.replicate 51 (0 : ℚ))] }

/-- C7 counterexample: `get_security_summary` counts stored window
lengths without re-pruning, so a client whose 51 requests are all 1000
seconds old is still reported as high-risk, while the pruned-window
count of the claim is zero. -/
theorem summary_high_risk_counterexample :
    (get_security_summary monitorStaleWindow 1000).high_risk_ips = 1 ∧
    spec_high_activity_count monitorStaleWindow 1000 = 0 := by
  constructor
  · rfl
  · have hd : (List.replicate 51 (0 : ℚ)).dropWhile
        (fun x => decide (x < 1000 - 60)) = [] := by
      rw [List.dropWhile_eq_nil_iff]
      intro x hx
      rw [List.eq_of_mem_replicate hx]
      simp only [decide_eq_true_eq]
      norm_num
    unfold spec_high_activity_count
    rw [show monitorStaleWindow.ip_request_times
      = [("c", List.replicate 51 (0 : ℚ))] from rfl]
    rw [List.filter_cons]
    dsimp only
    rw [hd]
    simp

/-- C7 (amended): the summary's high-risk count equals the number of
clients whose *stored* window length exceeds the threshold; this
coincides with the count over windows re-pruned at query time exactly
when no stored timestamp is older than 60 seconds before the query
(`get_security_summary` itself never re-prunes). -/
theorem summary_high_risk_no_reprune (m : SecurityMonitor) (t : ℚ)
    (h : ∀ p ∈ m.ip_request_times, ∀ x ∈ p.2, t - 60 ≤ x) :
    (get_security_summary m t).high_risk_ips
      = spec_high_activity_count m t := by
  unfold get_security_summary spec_high_activity_count
  dsimp only
  congr 1
  apply List.filter_congr
  intro p hp
  have hd : p.2.dropWhile (fun x => decide (x < t - 60)) = p.2 := by
    apply dropWhile_eq_self_of_forall
    intro x hx
    simp only [decide_eq_true_eq]
    exact not_lt.mpr (h p hp x hx)
  rw [hd]

/-- A monitor whose only client has 51 stored timestamps, all fresh at
query time `100`. -/
def monitorFreshWindow : SecurityMonitor :=
  { initialSecurityMonitor with
    ip_request_times := [("c", List.replicate 51 (100 : ℚ))] }

/-- Witness: the amended C7 theorem at a monitor whose stored
timestamps are all within the trailing minute of the query. -/
theorem summary_high_risk_no_reprune_witness :
    (get_security_summary monitorFreshWindow 100).high_risk_ips
      = spec_high_activity_count monitorFreshWindow 100 :=
  summary_high_risk_no_reprune monitorFreshWindow 100 (by
    intro p hp x hx
    rw [show monitorFreshWindow.ip_request_times
      = [("c", List.replicate 51 (100 : ℚ))] from rfl] at hp
    rw [List.mem_singleton] at hp
    rw [hp] at hx
    rw [List.eq_of_mem_replicate hx]
    norm_num)

/-- C10: `reset_counters` empties the request counts, every client's
window, the user-agent counts, the suspicious patterns and the error
counters, while leaving the trained model and the trained flag intact,
so the ML stage of a subsequent `analyze_request` still runs exactly
when the flag was set. -/
theorem reset_counters_frame (m : SecurityMonitor) (req : RequestData)
    (t : ℚ) :
    (reset_counters m).security_model = m.security_model ∧
    (reset_counters m).is_trained = m.is_trained ∧
    (reset_counters m).ip_request_counts = [] ∧
    (∀ ip, alget [] (reset_counters m).ip_request_times ip = []) ∧
    (reset_counters m).user_agents = [] ∧
    (reset_counters m).suspicious_patterns = [] ∧
    (reset_counters m).error_counts = [] ∧
    ((reset_counters m).is_trained &&
      decide (0 < (newWindow (reset_counters m) req t).length))
        = m.is_trained := by
  refine ⟨rfl, rfl, rfl, ?_, rfl, rfl, rfl, ?_⟩
  · intro ip
    exact alget_map_nil m.ip_request_times ip
  · show (m.is_trained &&
      decide (0 < (newWindow (reset_counters m) req t).length))
        = m.is_trained
    have hpos : 0 < (newWindow (reset_counters m) req t).length :=
      List.length_pos.mpr (pruneWindow_ne_nil _ _)
    cases m.is_trained <;> simp [hpos]

/-- C1 (amended): the security detector's `train` fails closed below 10
samples and leaves the whole monitor state (model and trained flag
included) untouched; the metrics detector's `/train`, by contrast, has
no minimum sample count and installs a trained model for any nonempty
batch, including batches of fewer than 10 samples. -/
theorem train_min_samples (fit : List (List ℚ) → OutlierModel)
    (m : SecurityMonitor) (hist : List HistSample)
    (fs : List (List ℚ) → Scaler) (ff : List (List ℚ) → OutlierModel)
    (st : MetricsState) (data : List MetricsData)
    (hh : hist.length < 10) (hd : data ≠ []) :
    train_security_model fit m hist = (false, m) ∧
    trainInstalledModel (train_model fs ff st data) = true := by
  constructor
  · unfold train_security_model
    rw [if_pos]
    simpa using hh
  · unfold train_model trainInstalledModel
    have he : data.isEmpty = false := by
      cases data with
      | nil => exact absurd rfl hd
      | cons a l => rfl
    rw [he]
    simp

/-- Witness: the amended C1 theorem with an empty security batch and a
one-sample metrics batch. -/
theorem train_min_samples_witness :
    train_security_model (fun _ => dummyModel) initialSecurityMonitor []
      = (false, initialSecurityMonitor) ∧
    trainInstalledModel (train_model (fun _ => idScaler)
      (fun _ => dummyModel) initialMetricsState [mSampleA]) = true :=
  train_min_samples (fun _ => dummyModel) initialSecurityMonitor []
    (fun _ => idScaler) (fun _ => dummyModel) initialMetricsState
    [mSampleA] (by norm_num) (by simp)

/-- C1 counterexample: the metrics `/train` endpoint accepts a single
sample — far below the claimed 10-sample minimum — and installs a
trained model instead of failing. -/
theorem metrics_train_below_min_succeeds :
    trainInstalledModel (train_model (fun _ => idScaler)
      (fun _ => dummyModel) initialMetricsState [mSampleA]) = true := by
  rfl
